import Mathlib

/-!
Verification of the smart-road per-tick arbitration engine.

Shallow embedding of `src/simulation/vehicle.rs`, `src/simulation/physics.rs`
and `src/simulation/intersection.rs`.

Conventions of the embedding:
* `f32` values are modelled as exact rationals (`ℚ`); floating-point literals
  such as `1.2` are taken at their decimal value.
* `distance.sqrt() < t` (with `distance2 = dx*dx + dy*dy ≥ 0`) is embedded as
  `0 < t ∧ distance2 < t*t`, which is exactly equivalent in real arithmetic;
  likewise for `≤`.  All distances are therefore carried squared.
* The `f32::INFINITY` / NaN arithmetic in the conflict-timing test is resolved
  exactly: whenever either velocity is `0`, both `(my_time - other_time).abs()
  < buffer` and `my_time < 8.0` are false in IEEE arithmetic, so the conflict
  test is false.
* Rust `HashMap<Direction, Vec<Vehicle>>` with its four always-present keys is
  a total function `Direction → List Vehicle`; iteration order over the map,
  which Rust leaves unspecified, is fixed to North, South, East, West (all
  results proved below are independent of that order).
* The `STATS` singleton is modelled by the `close_calls` counter carried in
  the intersection state; `record_close_call` increments it.
-/

/-- `Direction` from vehicle.rs. -/
inductive Direction where
  | North
  | South
  | East
  | West
deriving DecidableEq, Repr

/-- `Route` from vehicle.rs. -/
inductive Route where
  | Right
  | Straight
  | Left
deriving DecidableEq, Repr

/-- `Vehicle` from vehicle.rs. -/
structure Vehicle where
  id : ℕ
  position : ℚ × ℚ
  velocity : ℚ
  route : Route
  direction : Direction
  distance_to_intersection : ℚ
  active : Bool
  time_elapsed : ℚ
  has_turned : Bool
  prev_direction : Direction
deriving DecidableEq, Repr

/-- `LANE_WIDTH` (3.5 m). -/
def LANE_WIDTH : ℚ := 7/2

/-- `LANES_PER_DIRECTION`. -/
def LANES_PER_DIRECTION : ℚ := 3

/-- `INTERSECTION_HALF_WIDTH = LANE_WIDTH * LANES_PER_DIRECTION` (10.5 m). -/
def INTERSECTION_HALF_WIDTH : ℚ := LANE_WIDTH * LANES_PER_DIRECTION

/-- `f32::EPSILON` = 2⁻²³. -/
def f32_epsilon : ℚ := 1 / 8388608

namespace velocities

/-- `velocities::SLOW` (5 m/s). -/
def SLOW : ℚ := 5

/-- `velocities::MEDIUM` (10 m/s). -/
def MEDIUM : ℚ := 10

/-- `velocities::FAST` (15 m/s). -/
def FAST : ℚ := 15

end velocities

/-- Squared Euclidean distance between two positions; the code computes
`(dx*dx + dy*dy).sqrt()`, we carry the square. -/
def dist2 (p q : ℚ × ℚ) : ℚ :=
  (p.1 - q.1) * (p.1 - q.1) + (p.2 - q.2) * (p.2 - q.2)

/-- `s.sqrt() < t` for `s ≥ 0`, expressed without square roots. -/
def sqrt_lt (s t : ℚ) : Bool :=
  decide (0 < t ∧ s < t * t)

/-- `s.sqrt() ≤ t` for `s ≥ 0`, expressed without square roots. -/
def sqrt_le (s t : ℚ) : Bool :=
  decide (0 ≤ t ∧ s ≤ t * t)

/-- `direction_right_of` from `Vehicle::update_position`: 90° clockwise. -/
def direction_right_of : Direction → Direction
  | Direction.North => Direction.East
  | Direction.East => Direction.South
  | Direction.South => Direction.West
  | Direction.West => Direction.North

/-- `move_along` from `Vehicle::update_position`. -/
def move_along (pos : ℚ × ℚ) (dir : Direction) (dist : ℚ) : ℚ × ℚ :=
  match dir with
  | Direction.North => (pos.1, pos.2 + dist)
  | Direction.South => (pos.1, pos.2 - dist)
  | Direction.East => (pos.1 + dist, pos.2)
  | Direction.West => (pos.1 - dist, pos.2)

/-- `lane_offset_for_route` from `Vehicle::update_position`
(Right = 2.5, Straight = 1.5, Left = 0.5 lane widths). -/
def lane_offset_for_route : Route → ℚ
  | Route.Right => LANE_WIDTH * (5/2)
  | Route.Straight => LANE_WIDTH * (3/2)
  | Route.Left => LANE_WIDTH * (1/2)

/-- `offset_vec` from `Vehicle::update_position`: lateral lane offset as a
displacement of the stored base position, per current heading. -/
def offset_vec (dir : Direction) (offset : ℚ) : ℚ × ℚ :=
  match dir with
  | Direction.North => (offset, 0)
  | Direction.South => (-offset, 0)
  | Direction.East => (0, -offset)
  | Direction.West => (0, offset)

namespace Vehicle

/-- `Vehicle::new`. -/
def new (id : ℕ) (position : ℚ × ℚ) (velocity : ℚ) (route : Route)
    (direction : Direction) (distance_to_intersection : ℚ) : Vehicle :=
  { id := id
    position := position
    velocity := velocity
    route := route
    direction := direction
    distance_to_intersection := distance_to_intersection
    active := true
    time_elapsed := 0
    has_turned := false
    prev_direction := direction }

/-- `Vehicle::update_position` from vehicle.rs, lines 73–177.  The right-turn
branch fires when `route == Right`, `!has_turned` and the distance to the
entry edge is within `distance_traveled + f32::EPSILON`; both branches share
the final bookkeeping (`distance -= traveled`, `time += dt`, deactivation at
the hard-coded `-50.0`). -/
def update_position (v : Vehicle) (delta_time : ℚ) : Vehicle :=
  let distance_traveled := v.velocity * delta_time
  let to_entry_edge := max (v.distance_to_intersection - INTERSECTION_HALF_WIDTH) 0
  if v.route = Route.Right ∧ v.has_turned = false ∧
      to_entry_edge ≤ distance_traveled + f32_epsilon then
    -- 1) move up to the entry edge
    let to_edge := min to_entry_edge distance_traveled
    let pos1 := if 0 < to_edge then move_along v.position v.direction to_edge else v.position
    -- 2) transfer the lateral offset from the old heading to the new one
    let offset := lane_offset_for_route v.route
    let old_dir := v.direction
    let new_dir := direction_right_of old_dir
    let old_off := offset_vec old_dir offset
    let new_off := offset_vec new_dir offset
    let pos2 := (pos1.1 + old_off.1 - new_off.1, pos1.2 + old_off.2 - new_off.2)
    -- 4) move the remaining distance along the new heading
    let after_turn := max (distance_traveled - to_edge) 0
    let pos3 := if 0 < after_turn then move_along pos2 new_dir after_turn else pos2
    let dist' := v.distance_to_intersection - distance_traveled
    { v with
      position := pos3
      direction := new_dir
      has_turned := true
      prev_direction := old_dir
      distance_to_intersection := dist'
      time_elapsed := v.time_elapsed + delta_time
      active := if dist' < -50 then false else v.active }
  else
    let pos' := move_along v.position v.direction distance_traveled
    let dist' := v.distance_to_intersection - distance_traveled
    { v with
      position := pos'
      distance_to_intersection := dist'
      time_elapsed := v.time_elapsed + delta_time
      active := if dist' < -50 then false else v.active
      prev_direction := if v.has_turned then v.prev_direction else v.direction }

/-- `Vehicle::is_too_close`. -/
def is_too_close (v other : Vehicle) (safe_distance : ℚ) : Bool :=
  sqrt_lt (dist2 v.position other.position) safe_distance

/-- `Vehicle::stop`. -/
def stop (v : Vehicle) : Vehicle :=
  { v with velocity := 0 }

/-- `Vehicle::set_velocity`. -/
def set_velocity (v : Vehicle) (velocity : ℚ) : Vehicle :=
  { v with velocity := velocity }

/-- `Vehicle::is_stopped`. -/
def is_stopped (v : Vehicle) : Bool :=
  decide (v.velocity = 0)

end Vehicle

/-- `Physics` from physics.rs. -/
structure Physics where
  safe_distance : ℚ
  boundary_limit : ℚ
deriving DecidableEq, Repr

namespace Physics

/-- `Physics::new`. -/
def new (safe_distance boundary_limit : ℚ) : Physics :=
  { safe_distance := safe_distance, boundary_limit := boundary_limit }

/-- `Physics::calculate_time`: defined only for positive velocity. -/
def calculate_time (_p : Physics) (distance velocity : ℚ) : Option ℚ :=
  if 0 < velocity then some (distance / velocity) else none

/-- `Physics::is_safe_distance`. -/
def is_safe_distance (p : Physics) (v1 v2 : Vehicle) : Bool :=
  !(v1.is_too_close v2 p.safe_distance)

/-- `Physics::is_out_of_bounds`. -/
def is_out_of_bounds (p : Physics) (v : Vehicle) : Bool :=
  decide (v.distance_to_intersection < -p.boundary_limit)

end Physics

/-- The four-keyed `HashMap<Direction, Vec<Vehicle>>` as a total function. -/
def Lanes : Type := Direction → List Vehicle

/-- The fixed direction order used for the processing loop
(`intersection.rs` line 74); also used wherever the Rust code iterates the
`HashMap` in unspecified order. -/
def directions_order : List Direction :=
  [Direction.North, Direction.South, Direction.East, Direction.West]

/-- `if closest.is_none() || distance < closest.unwrap() { closest = Some(distance) }`
on squared distances. -/
def update_min (acc : Option ℚ) (d : ℚ) : Option ℚ :=
  match acc with
  | none => some d
  | some c => if d < c then some d else acc

/-- Same-lane scan of the proximity stage (`intersection.rs` lines 96–115):
for every snapshot index `idx ≠ i` with `other.active`, feed the squared
distance into the ahead-minimum (when `other` is strictly closer to the
center) and into the any-minimum. -/
def scan_same_lane (v : Vehicle) (i : ℕ) (lane : List Vehicle) :
    Option ℚ × Option ℚ :=
  lane.enum.foldl
    (fun acc iv =>
      if iv.1 ≠ i ∧ iv.2.active then
        let d := dist2 v.position iv.2.position
        let closest_ahead :=
          if iv.2.distance_to_intersection < v.distance_to_intersection then
            update_min acc.1 d
          else acc.1
        (closest_ahead, update_min acc.2 d)
      else acc)
    (none, none)

/-- Other-lane scan of the proximity stage (`intersection.rs` lines 117–134):
active vehicles within 30 m feed the any-minimum. -/
def scan_other_lane (v : Vehicle) (lane : List Vehicle) (acc : Option ℚ) :
    Option ℚ :=
  lane.foldl
    (fun acc other =>
      if other.active then
        let d := dist2 v.position other.position
        if sqrt_lt d 30 then update_min acc d else acc
      else acc)
    acc

/-- `(closest_ahead_distance, closest_any_distance)` of the proximity stage
(`intersection.rs` lines 92–137), carried as squared distances. -/
def closest_distances (snap : Lanes) (dir : Direction) (i : ℕ) (v : Vehicle) :
    Option ℚ × Option ℚ :=
  let same := scan_same_lane v i (snap dir)
  let any :=
    directions_order.foldl
      (fun acc d => if d ≠ dir then scan_other_lane v (snap d) acc else acc)
      same.2
  (same.1, any)

/-- The proximity-stage speed map (`intersection.rs` lines 140–176).  Right
vehicles use only the ahead distance with thresholds 1.2/2.5 × safe_distance
and never 0; others use the ahead distance with thresholds 0.8/1.5/2.5 when
one exists, else the any distance with thresholds 1.0/2.0. -/
def proximity_speed (safe_distance : ℚ) (route : Route)
    (closest_ahead closest_any : Option ℚ) : ℚ :=
  if route = Route.Right then
    match closest_ahead with
    | some d =>
      if sqrt_lt d (safe_distance * (6/5)) then velocities.SLOW
      else if sqrt_lt d (safe_distance * (5/2)) then velocities.MEDIUM
      else velocities.FAST
    | none => velocities.FAST
  else
    match closest_ahead with
    | some d =>
      if sqrt_le d (safe_distance * (4/5)) then 0
      else if sqrt_lt d (safe_distance * (3/2)) then velocities.SLOW
      else if sqrt_lt d (safe_distance * (5/2)) then velocities.MEDIUM
      else velocities.FAST
    | none =>
      match closest_any with
      | some d =>
        if sqrt_lt d (safe_distance * 1) then velocities.SLOW
        else if sqrt_lt d (safe_distance * 2) then velocities.MEDIUM
        else velocities.FAST
      | none => velocities.FAST

/-- The relaxed same-lane check for Right vehicles inside the entry zone
(`intersection.rs` lines 190–202): safe unless some other active same-lane
vehicle is within 0.8 × safe_distance. -/
def right_turn_safe (safe_distance : ℚ) (v : Vehicle) (i : ℕ)
    (lane : List Vehicle) : Bool :=
  lane.enum.all
    (fun iv =>
      !(decide (iv.1 ≠ i) && iv.2.active &&
        sqrt_lt (dist2 v.position iv.2.position) (safe_distance * (4/5))))

/-- `paths_cross` (`intersection.rs` lines 232–245). -/
def paths_cross (vr or_ : Route) (vd od : Direction) : Bool :=
  match vr, or_ with
  | Route.Right, _ => false
  | _, Route.Right => false
  | Route.Left, _ => true
  | _, Route.Left => true
  | Route.Straight, Route.Straight =>
    match vd, od with
    | Direction.North, Direction.South => true
    | Direction.South, Direction.North => true
    | Direction.East, Direction.West => true
    | Direction.West, Direction.East => true
    | _, _ => false

/-- `has_priority` (`intersection.rs` lines 264–314): the five-rule
right-of-way cascade exactly as nested in the source. -/
def has_priority (v other : Vehicle) : Bool :=
  -- Rule 1: vehicle already in intersection has absolute priority
  if v.distance_to_intersection < 0 ∧ 0 ≤ other.distance_to_intersection then
    true
  else if other.distance_to_intersection < 0 ∧ 0 ≤ v.distance_to_intersection then
    false
  else
    -- Rule 2: vehicle closer to intersection has priority
    let distance_diff := v.distance_to_intersection - other.distance_to_intersection
    if 8 < |distance_diff| then
      decide (v.distance_to_intersection < other.distance_to_intersection)
    else
      -- Rule 3: route priority (Straight > Right > Left)
      let vehicle_route_priority : ℕ :=
        match v.route with
        | Route.Straight => 3
        | Route.Right => 2
        | Route.Left => 1
      let other_route_priority : ℕ :=
        match other.route with
        | Route.Straight => 3
        | Route.Right => 2
        | Route.Left => 1
      if vehicle_route_priority ≠ other_route_priority then
        decide (other_route_priority < vehicle_route_priority)
      else
        -- Rule 4: direction priority
        let vehicle_priority : ℕ :=
          match v.direction with
          | Direction.North => 4
          | Direction.East => 3
          | Direction.South => 2
          | Direction.West => 1
        let other_priority : ℕ :=
          match other.direction with
          | Direction.North => 4
          | Direction.East => 3
          | Direction.South => 2
          | Direction.West => 1
        if vehicle_priority ≠ other_priority then
          decide (other_priority < vehicle_priority)
        else
          -- Final tie-breaker: lower ID has priority
          decide (v.id < other.id)

/-- The live-conflict timing test (`intersection.rs` lines 248–263) for a
given in-intersection count.  In the source, zero velocity yields
`f32::INFINITY`, which makes both `(my_time - other_time).abs() < time_buffer`
and `my_time < 8.0` false. -/
def conflict_live (v other : Vehicle) (vehicles_in_intersection : ℕ) : Bool :=
  let time_buffer : ℚ :=
    if vehicles_in_intersection < 3 then 9/5
    else if vehicles_in_intersection < 6 then 11/5
    else 7/2
  if 0 < v.velocity ∧ 0 < other.velocity then
    decide
      (|v.distance_to_intersection / v.velocity -
          |other.distance_to_intersection| / other.velocity| < time_buffer ∧
        v.distance_to_intersection / v.velocity < 8)
  else
    false

/-- The other-direction scan of the intersection-zone stage
(`intersection.rs` lines 210–331): walk all active vehicles from other
lanes, counting those currently inside the footprint, and fail at the first
crossing path with overlapping arrival windows against which `v` has no
priority. -/
def scan_conflicts (v : Vehicle) : ℕ → List Vehicle → Bool
  | _, [] => true
  | vehicles_in_intersection, other :: rest =>
    if other.active then
      let cnt :=
        if other.distance_to_intersection < 0 ∧
            -(INTERSECTION_HALF_WIDTH * 2) < other.distance_to_intersection then
          vehicles_in_intersection + 1
        else vehicles_in_intersection
      if |other.distance_to_intersection| < INTERSECTION_HALF_WIDTH * 3 ∧
          paths_cross v.route other.route v.direction other.direction = true ∧
          conflict_live v other cnt = true ∧
          has_priority v other = false then
        false
      else
        scan_conflicts v cnt rest
    else
      scan_conflicts v vehicles_in_intersection rest

/-- Concatenation of the snapshot lanes other than `dir`, in the fixed
iteration order. -/
def others_of (snap : Lanes) (dir : Direction) : List Vehicle :=
  (directions_order.filter (fun d => d ≠ dir)).flatMap snap

/-- The context-stage speed (`intersection.rs` lines 351–357). -/
def context_speed (distance_to_intersection : ℚ) : ℚ :=
  if distance_to_intersection < 8 then velocities.SLOW
  else if distance_to_intersection < 25 then velocities.MEDIUM
  else velocities.FAST

/-- The tail of one vehicle's processing (`intersection.rs` lines 367–378):
move when the assigned velocity is positive, then deactivate the vehicle if
it is out of bounds. -/
def step_move (physics : Physics) (delta_time : ℚ) (v1 : Vehicle) : Vehicle :=
  let v2 := if 0 < v1.velocity then v1.update_position delta_time else v1
  if physics.is_out_of_bounds v2 then { v2 with active := false } else v2

/-- One vehicle's processing inside `Intersection::update`
(`intersection.rs` lines 83–378): snapshot-driven proximity stage, the two
intersection-zone branches with their early `continue`s, then the minimum of
proximity and context speeds, movement, and the out-of-bounds check.
`i` is the vehicle's index in its (sorted) live lane; all other vehicles are
read from `snap`. -/
def step_vehicle (safe_distance intersection_entry_distance : ℚ)
    (physics : Physics) (snap : Lanes) (delta_time : ℚ) (dir : Direction)
    (i : ℕ) (v : Vehicle) : Vehicle :=
  if v.active = false then v
  else
    let current_lane := snap dir
    let cd := closest_distances snap dir i v
    let proximity := proximity_speed safe_distance v.route cd.1 cd.2
    -- Step 1: stop on extreme proximity (right turns never stop)
    if proximity = 0 ∧ v.route ≠ Route.Right then
      v.stop
    -- Step 2: intersection-zone stage, Right branch
    else if v.distance_to_intersection ≤ intersection_entry_distance ∧
        0 < v.distance_to_intersection ∧ v.route = Route.Right ∧
        right_turn_safe safe_distance v i current_lane = false then
      v.set_velocity velocities.SLOW
    -- Step 2: intersection-zone stage, non-Right branch
    else if v.distance_to_intersection ≤ intersection_entry_distance ∧
        0 < v.distance_to_intersection ∧ v.route ≠ Route.Right ∧
        scan_conflicts v 0 (others_of snap dir) = false ∧
        v.distance_to_intersection - INTERSECTION_HALF_WIDTH ≤ 15 then
      let v1 := v.set_velocity velocities.SLOW
      if v.distance_to_intersection - INTERSECTION_HALF_WIDTH ≤ 2 then v1.stop
      else v1
    else
      -- Step 3: minimum of proximity and context speed, then movement
      let context := context_speed v.distance_to_intersection
      let final_speed := if proximity ≤ context then proximity else context
      step_move physics delta_time (v.set_velocity final_speed)

/-- Stable insertion step for the lane sort. -/
def insert_by_distance (v : Vehicle) : List Vehicle → List Vehicle
  | [] => [v]
  | w :: rest =>
    if v.distance_to_intersection < w.distance_to_intersection then
      v :: w :: rest
    else
      w :: insert_by_distance v rest

/-- `lane.sort_by(|a, b| a.distance_to_intersection.partial_cmp(...))`
(`intersection.rs` line 79): stable ascending sort by distance. -/
def sort_lane : List Vehicle → List Vehicle
  | [] => []
  | v :: rest => insert_by_distance v (sort_lane rest)

/-- The sequential `for i in 0..lane.len()` loop (`intersection.rs` lines
82–381): the live lane is mutated in place at index `i` at step `i`; `fuel`
starts at the lane length. -/
def tick_lane_aux (safe_distance intersection_entry_distance : ℚ)
    (physics : Physics) (snap : Lanes) (delta_time : ℚ) (dir : Direction) :
    ℕ → ℕ → List Vehicle → List Vehicle
  | 0, _, lane => lane
  | fuel + 1, i, lane =>
    if h : i < lane.length then
      tick_lane_aux safe_distance intersection_entry_distance physics snap
        delta_time dir fuel (i + 1)
        (lane.set i
          (step_vehicle safe_distance intersection_entry_distance physics snap
            delta_time dir i (lane.get ⟨i, h⟩)))
    else lane

/-- Processing of one lane within a tick. -/
def tick_lane (safe_distance intersection_entry_distance : ℚ)
    (physics : Physics) (snap : Lanes) (delta_time : ℚ) (dir : Direction)
    (lane : List Vehicle) : List Vehicle :=
  tick_lane_aux safe_distance intersection_entry_distance physics snap
    delta_time dir lane.length 0 lane

/-- The outer per-direction loop (`intersection.rs` lines 76–383): each lane
is sorted and processed in turn, with the mutated lane written back into the
live map before the next direction is processed. -/
def tick_dirs (safe_distance intersection_entry_distance : ℚ)
    (physics : Physics) (snap : Lanes) (delta_time : ℚ) :
    Lanes → List Direction → Lanes
  | live, [] => live
  | live, d :: rest =>
    tick_dirs safe_distance intersection_entry_distance physics snap delta_time
      (Function.update live d
        (tick_lane safe_distance intersection_entry_distance physics snap
          delta_time d (sort_lane (live d))))
      rest

/-- Pure indexed map; the snapshot-isolation theorem shows the sequential
in-place loop computes exactly this. -/
def map_with_idx (f : ℕ → Vehicle → Vehicle) : ℕ → List Vehicle → List Vehicle
  | _, [] => []
  | i, v :: rest => f i v :: map_with_idx f (i + 1) rest

/-- Normalized unordered pair of vehicle ids (`detect_close_calls`). -/
def pair_key (a b : ℕ) : ℕ × ℕ :=
  if a < b then (a, b) else (b, a)

/-- The mutable state threaded through `detect_close_calls`. -/
structure DetectState where
  checked_pairs : Finset (ℕ × ℕ)
  currently_close_pairs : Finset (ℕ × ℕ)
  recorded_close_calls : Finset (ℕ × ℕ)
  close_calls : ℕ

/-- The body of the pair loop of `detect_close_calls` (`intersection.rs`
lines 412–457) for one ordered pair `(v1, v2)`. -/
def detect_step (safe_distance : ℚ) (st : DetectState) (v1 v2 : Vehicle) :
    DetectState :=
  if v1.active = false ∨ v2.active = false ∨ v1.id = v2.id then st
  else
    let pair := pair_key v1.id v2.id
    if pair ∈ st.checked_pairs then st
    else
      let st1 := { st with checked_pairs := insert pair st.checked_pairs }
      if sqrt_lt (dist2 v1.position v2.position) safe_distance then
        let st2 :=
          { st1 with
            currently_close_pairs := insert pair st1.currently_close_pairs }
        if pair ∈ st2.recorded_close_calls then st2
        else
          { st2 with
            recorded_close_calls := insert pair st2.recorded_close_calls
            close_calls := st2.close_calls + 1 }
      else st1

/-- All vehicles of the snapshot, in the fixed lane-iteration order. -/
def all_vehicles (lanes : Lanes) : List Vehicle :=
  directions_order.flatMap lanes

/-- All ordered vehicle pairs visited by the nested loops of
`detect_close_calls`. -/
def vehicle_pairs (vs : List Vehicle) : List (Vehicle × Vehicle) :=
  vs.flatMap (fun v1 => vs.map (fun v2 => (v1, v2)))

/-- `Intersection::detect_close_calls` (`intersection.rs` lines 407–464):
scan every pair once (deduplicated through `checked_pairs`), record new
close pairs and count them, then retain only the currently close pairs. -/
def detect_close_calls (safe_distance : ℚ)
    (recorded_close_calls : Finset (ℕ × ℕ)) (close_calls : ℕ)
    (all_lanes : Lanes) : Finset (ℕ × ℕ) × ℕ :=
  let st0 : DetectState :=
    { checked_pairs := ∅
      currently_close_pairs := ∅
      recorded_close_calls := recorded_close_calls
      close_calls := close_calls }
  let st :=
    (vehicle_pairs (all_vehicles all_lanes)).foldl
      (fun st p => detect_step safe_distance st p.1 p.2) st0
  (st.recorded_close_calls.filter (fun p => p ∈ st.currently_close_pairs),
    st.close_calls)

/-- `Intersection` from intersection.rs, with the close-call count of the
`STATS` observer carried alongside. -/
structure Intersection where
  lanes : Lanes
  safe_distance : ℚ
  physics : Physics
  intersection_entry_distance : ℚ
  recorded_close_calls : Finset (ℕ × ℕ)
  close_calls : ℕ

namespace Intersection

/-- `Intersection::new`. -/
def new (safe_distance : ℚ) : Intersection :=
  { lanes := fun _ => []
    safe_distance := safe_distance
    physics := Physics.new safe_distance 100
    intersection_entry_distance := INTERSECTION_HALF_WIDTH + 10
    recorded_close_calls := ∅
    close_calls := 0 }

/-- `Intersection::add_vehicle`: the lane lookup always succeeds because all
four keys are present by construction, so the vehicle is pushed and the
result is `true`. -/
def add_vehicle (self : Intersection) (direction : Direction) (vehicle : Vehicle) :
    Intersection × Bool :=
  ({ self with
      lanes := Function.update self.lanes direction (self.lanes direction ++ [vehicle]) },
    true)

/-- Ids of the active vehicles of the snapshot (`intersection.rs` lines
59–63). -/
def active_ids (lanes : Lanes) : Finset ℕ :=
  ((all_vehicles lanes).filter (fun v => v.active)).toFinset.image (fun v => v.id)

/-- `Intersection::update` (`intersection.rs` lines 52–389): snapshot the
lanes, prune recorded close calls of inactive vehicles, detect close calls,
process the four lanes sequentially over the live map, then purge inactive
vehicles. -/
def update (self : Intersection) (delta_time : ℚ) : Intersection :=
  let all_lanes_snapshot : Lanes := self.lanes
  let ids := active_ids all_lanes_snapshot
  let recorded1 :=
    self.recorded_close_calls.filter (fun p => p.1 ∈ ids ∧ p.2 ∈ ids)
  let det :=
    detect_close_calls self.safe_distance recorded1 self.close_calls
      all_lanes_snapshot
  let lanes1 :=
    tick_dirs self.safe_distance self.intersection_entry_distance self.physics
      all_lanes_snapshot delta_time self.lanes directions_order
  { self with
    lanes := fun d => (lanes1 d).filter (fun v => v.active)
    recorded_close_calls := det.1
    close_calls := det.2 }

/-- `Intersection::total_vehicles`. -/
def total_vehicles (self : Intersection) : ℕ :=
  (directions_order.map (fun d => (self.lanes d).length)).sum

/-- `Intersection::vehicles_in_lane`. -/
def vehicles_in_lane (self : Intersection) (direction : Direction) : ℕ :=
  (self.lanes direction).length

end Intersection

/-- An externally invokable engine operation. -/
inductive EngineOp where
  | tick (delta_time : ℚ)
  | add (direction : Direction) (vehicle : Vehicle)

/-- Apply one engine operation. -/
def apply_op (I : Intersection) : EngineOp → Intersection
  | EngineOp.tick dt => I.update dt
  | EngineOp.add d v => (I.add_vehicle d v).1

/-- Apply a sequence of engine operations in order. -/
def apply_ops (I : Intersection) : List EngineOp → Intersection
  | [] => I
  | op :: rest => apply_ops (apply_op I op) rest

/-- The vehicles given to `add_vehicle` calls of a sequence. -/
def added_vehicles : List EngineOp → List Vehicle
  | [] => []
  | EngineOp.tick _ :: rest => added_vehicles rest
  | EngineOp.add _ v :: rest => v :: added_vehicles rest

/-- The set of normalized id pairs of active, distinct-id vehicle pairs of
the snapshot whose Euclidean distance is below `safe_distance`. -/
def close_pairs (safe : ℚ) (vs : List Vehicle) : Finset (ℕ × ℕ) :=
  ((vehicle_pairs vs).filterMap
    (fun q =>
      if q.1.active = true ∧ q.2.active = true ∧ q.1.id ≠ q.2.id ∧
          sqrt_lt (dist2 q.1.position q.2.position) safe = true then
        some (pair_key q.1.id q.2.id)
      else none)).toFinset

/-- The invariant carried through the pair loop of `detect_close_calls`:
the currently-close set is exactly the close subset of the checked keys, the
recorded set is the initial one plus the currently-close keys, and the
counter has advanced by the number of close keys not initially recorded. -/
def DetectInv (safe : ℚ) (vs : List Vehicle) (rec0 : Finset (ℕ × ℕ))
    (c0 : ℕ) (st : DetectState) : Prop :=
  st.currently_close_pairs =
    st.checked_pairs.filter (fun p => p ∈ close_pairs safe vs) ∧
  st.recorded_close_calls = rec0 ∪ st.currently_close_pairs ∧
  st.close_calls = c0 + (st.currently_close_pairs \ rec0).card

/-- Modelled from the spec: route priority Straight > Right > Left. -/
def route_priority : Route → ℕ
  | Route.Straight => 3
  | Route.Right => 2
  | Route.Left => 1

/-- Modelled from the spec: direction priority North > East > South > West. -/
def direction_priority : Direction → ℕ
  | Direction.North => 4
  | Direction.East => 3
  | Direction.South => 2
  | Direction.West => 1

/-- Modelled from the spec: the five-rule right-of-way cascade, stopping at
the first rule that discriminates — (1) past the stop line outranks
approaching, (2) strictly closer wins when the gap exceeds the 8 m noise
band, (3) route priority, (4) direction priority, (5) lower id. -/
def spec_priority_cascade (v other : Vehicle) : Bool :=
  if v.distance_to_intersection < 0 ∧ 0 ≤ other.distance_to_intersection then
    true
  else if other.distance_to_intersection < 0 ∧
      0 ≤ v.distance_to_intersection then
    false
  else if 8 < |v.distance_to_intersection - other.distance_to_intersection| then
    decide (v.distance_to_intersection < other.distance_to_intersection)
  else if route_priority v.route ≠ route_priority other.route then
    decide (route_priority other.route < route_priority v.route)
  else if direction_priority v.direction ≠ direction_priority other.direction then
    decide (direction_priority other.direction < direction_priority v.direction)
  else
    decide (v.id < other.id)

/-- The straight travel distance up to the intersection entry edge actually
covered this tick (`to_edge` in `Vehicle::update_position`). -/
def right_turn_edge_travel (v : Vehicle) (delta_time : ℚ) : ℚ :=
  min (max (v.distance_to_intersection - INTERSECTION_HALF_WIDTH) 0)
    (v.velocity * delta_time)

/-- Modelled from the spec: a vehicle's true world position is its stored
base position plus the renderer's lane-centerline offset for its route under
the given heading (the offset is never stored on the vehicle). -/
def world_position (base : ℚ × ℚ) (dir : Direction) (route : Route) :
    ℚ × ℚ :=
  (base.1 + (offset_vec dir (lane_offset_for_route route)).1,
    base.2 + (offset_vec dir (lane_offset_for_route route)).2)

/-- Modelled from the spec: exactly-opposing direction pairs (North/South,
East/West). -/
def is_opposing : Direction → Direction → Bool
  | Direction.North, Direction.South => true
  | Direction.South, Direction.North => true
  | Direction.East, Direction.West => true
  | Direction.West, Direction.East => true
  | _, _ => false

/-- A concrete snapshot for the close-call witness: two vehicles 5 m
apart. -/
def c9_lanes : Lanes := fun _ =>
  [Vehicle.new 1 (0, 0) 10 Route.Straight Direction.North 50,
    Vehicle.new 2 (3, 4) 10 Route.Straight Direction.North 45]

/-! ## Structure of the per-tick loop -/

theorem set_take_succ {α : Type _} :
    ∀ (l : List α) (i : ℕ) (a : α), i < l.length →
      (l.set i a).take (i + 1) = l.take i ++ [a]
  | [], i, a, h => absurd h (by simp)
  | x :: xs, 0, a, _ => by simp
  | x :: xs, i + 1, a, h => by
    simp only [List.set_cons_succ, List.take_succ_cons]
    rw [set_take_succ xs i a (by simpa using h)]
    simp

theorem set_drop_succ {α : Type _} (l : List α) (i : ℕ) (a : α) :
    (l.set i a).drop (i + 1) = l.drop (i + 1) := by
  rw [List.drop_set]
  simp

theorem drop_cons_get {α : Type _} (l : List α) (i : ℕ) (h : i < l.length) :
    l.drop i = l.get ⟨i, h⟩ :: l.drop (i + 1) :=
  List.drop_eq_getElem_cons h

/-- The sequential in-place loop over a lane computes the pure indexed map:
step `i` only writes index `i`, and later steps never read indices already
written. -/
theorem tick_lane_aux_eq (s e : ℚ) (p : Physics) (sn : Lanes) (dt : ℚ)
    (d : Direction) :
    ∀ (fuel i : ℕ) (lane : List Vehicle), lane.length ≤ i + fuel →
      tick_lane_aux s e p sn dt d fuel i lane =
        lane.take i ++
          map_with_idx (step_vehicle s e p sn dt d) i (lane.drop i)
  | 0, i, lane, hle => by
    have hlen : lane.length ≤ i := by simpa using hle
    simp [tick_lane_aux, List.take_of_length_le hlen, List.drop_of_length_le hlen,
      map_with_idx]
  | fuel + 1, i, lane, hle => by
    by_cases h : i < lane.length
    · have hset :
        (lane.set i
            (step_vehicle s e p sn dt d i (lane.get ⟨i, h⟩))).length ≤
          (i + 1) + fuel := by
        simp only [List.length_set]
        omega
      simp only [tick_lane_aux, dif_pos h]
      rw [tick_lane_aux_eq s e p sn dt d fuel (i + 1) _ hset]
      rw [set_take_succ _ _ _ h, set_drop_succ]
      rw [drop_cons_get lane i h]
      simp [map_with_idx, List.append_assoc]
    · simp only [tick_lane_aux, dif_neg h]
      have hlen : lane.length ≤ i := Nat.le_of_not_lt h
      simp [List.take_of_length_le hlen, List.drop_of_length_le hlen,
        map_with_idx]

/-- One lane's processing is the pure indexed map over that lane. -/
theorem tick_lane_eq (s e : ℚ) (p : Physics) (sn : Lanes) (dt : ℚ)
    (d : Direction) (lane : List Vehicle) :
    tick_lane s e p sn dt d lane =
      map_with_idx (step_vehicle s e p sn dt d) 0 lane := by
  have := tick_lane_aux_eq s e p sn dt d lane.length 0 lane (by simp)
  simpa using this

/-- Processing the four lanes in sequence starting from the snapshot leaves
each direction's result depending only on the snapshot. -/
theorem tick_dirs_apply (s e : ℚ) (p : Physics) (sn : Lanes) (dt : ℚ)
    (d : Direction) :
    tick_dirs s e p sn dt sn directions_order d =
      tick_lane s e p sn dt d (sort_lane (sn d)) := by
  cases d <;>
    simp [directions_order, tick_dirs, Function.update]

/-- The lanes after `Intersection::update`, written as a pure function of the
start-of-tick snapshot. -/
theorem update_lanes_eq (I : Intersection) (dt : ℚ) (d : Direction) :
    (I.update dt).lanes d =
      (map_with_idx
          (step_vehicle I.safe_distance I.intersection_entry_distance
            I.physics I.lanes dt d) 0
          (sort_lane (I.lanes d))).filter (fun v => v.active) := by
  show (tick_dirs I.safe_distance I.intersection_entry_distance I.physics
      I.lanes dt I.lanes directions_order d).filter (fun v => v.active) = _
  rw [tick_dirs_apply, tick_lane_eq]

/-! ## Field-preservation lemmas -/

theorem update_position_id (v : Vehicle) (dt : ℚ) :
    (v.update_position dt).id = v.id := by
  simp only [Vehicle.update_position]
  split_ifs <;> rfl

theorem update_position_route (v : Vehicle) (dt : ℚ) :
    (v.update_position dt).route = v.route := by
  simp only [Vehicle.update_position]
  split_ifs <;> rfl

theorem update_position_velocity (v : Vehicle) (dt : ℚ) :
    (v.update_position dt).velocity = v.velocity := by
  simp only [Vehicle.update_position]
  split_ifs <;> rfl

theorem update_position_distance (v : Vehicle) (dt : ℚ) :
    (v.update_position dt).distance_to_intersection =
      v.distance_to_intersection - v.velocity * dt := by
  simp only [Vehicle.update_position]
  split_ifs <;> rfl

/-- `Vehicle::update_position` deactivates exactly below the hard-coded
`-50.0`, in both the turning and the straight branch, and never reactivates. -/
theorem update_position_active (v : Vehicle) (dt : ℚ) :
    (v.update_position dt).active =
      (v.active &&
        !decide (v.distance_to_intersection - v.velocity * dt < -50)) := by
  simp only [Vehicle.update_position]
  split_ifs <;> simp_all

theorem step_move_id (p : Physics) (dt : ℚ) (v1 : Vehicle) :
    (step_move p dt v1).id = v1.id := by
  simp only [step_move]
  split_ifs <;> simp [update_position_id]

theorem step_move_route (p : Physics) (dt : ℚ) (v1 : Vehicle) :
    (step_move p dt v1).route = v1.route := by
  simp only [step_move]
  split_ifs <;> simp [update_position_route]

theorem step_move_velocity (p : Physics) (dt : ℚ) (v1 : Vehicle) :
    (step_move p dt v1).velocity = v1.velocity := by
  simp only [step_move]
  split_ifs <;> simp [update_position_velocity]

theorem step_vehicle_id (s e : ℚ) (p : Physics) (sn : Lanes) (dt : ℚ)
    (d : Direction) (i : ℕ) (v : Vehicle) :
    (step_vehicle s e p sn dt d i v).id = v.id := by
  simp only [step_vehicle]
  split_ifs <;>
    simp [Vehicle.stop, Vehicle.set_velocity, step_move_id]

theorem step_vehicle_route (s e : ℚ) (p : Physics) (sn : Lanes) (dt : ℚ)
    (d : Direction) (i : ℕ) (v : Vehicle) :
    (step_vehicle s e p sn dt d i v).route = v.route := by
  simp only [step_vehicle]
  split_ifs <;>
    simp [Vehicle.stop, Vehicle.set_velocity, step_move_route]

theorem mem_map_with_idx {f : ℕ → Vehicle → Vehicle} :
    ∀ {i : ℕ} {l : List Vehicle} {v' : Vehicle},
      v' ∈ map_with_idx f i l → ∃ j v, v ∈ l ∧ v' = f j v
  | _, [], _, h => absurd h (by simp [map_with_idx])
  | i, w :: rest, v', h => by
    rcases (by simpa [map_with_idx] using h : v' = f i w ∨ v' ∈ map_with_idx f (i + 1) rest) with h1 | h2
    · exact ⟨i, w, by simp, h1⟩
    · obtain ⟨j, v, hv, hv'⟩ := mem_map_with_idx h2
      exact ⟨j, v, by simp [hv], hv'⟩

theorem mem_insert_by_distance {v w : Vehicle} :
    ∀ {l : List Vehicle}, w ∈ insert_by_distance v l ↔ w = v ∨ w ∈ l
  | [] => by simp [insert_by_distance]
  | x :: rest => by
    unfold insert_by_distance
    split
    · simp [or_comm, or_assoc, or_left_comm]
    · simp only [List.mem_cons, mem_insert_by_distance (l := rest)]
      tauto

theorem mem_sort_lane {w : Vehicle} :
    ∀ {l : List Vehicle}, w ∈ sort_lane l ↔ w ∈ l
  | [] => Iff.rfl
  | x :: rest => by
    unfold sort_lane
    rw [mem_insert_by_distance]
    simp [mem_sort_lane (l := rest)]

/-! ## The Right-turn speed floor -/

theorem proximity_speed_right_ge (s : ℚ) (ca cn : Option ℚ) :
    velocities.SLOW ≤ proximity_speed s Route.Right ca cn := by
  unfold proximity_speed
  cases ca <;> simp only [reduceIte] <;>
    (try split_ifs) <;>
    norm_num [velocities.SLOW, velocities.MEDIUM, velocities.FAST]

theorem context_speed_ge (x : ℚ) : velocities.SLOW ≤ context_speed x := by
  unfold context_speed
  split_ifs <;>
    norm_num [velocities.SLOW, velocities.MEDIUM, velocities.FAST]

/-- An active Right vehicle leaves its per-tick processing with velocity at
least SLOW: the proximity stage never maps it to 0, the stop branch excludes
it, the zone branch sets SLOW, and the final minimum is of two speeds both
at least SLOW. -/
theorem step_vehicle_right_ge (s e : ℚ) (p : Physics) (sn : Lanes) (dt : ℚ)
    (d : Direction) (i : ℕ) (v : Vehicle) (ha : v.active = true)
    (hr : v.route = Route.Right) :
    velocities.SLOW ≤ (step_vehicle s e p sn dt d i v).velocity := by
  have hprox := proximity_speed_right_ge s
    (closest_distances sn d i v).1 (closest_distances sn d i v).2
  have hctx := context_speed_ge v.distance_to_intersection
  simp only [step_vehicle]
  split_ifs <;>
    simp_all [Vehicle.set_velocity, Vehicle.stop, step_move_velocity,
      velocities.SLOW]

/-- Every Right vehicle still in a lane after a tick has velocity at least
SLOW. -/
theorem update_right_ge (I : Intersection) (dt : ℚ) (d : Direction) :
    ∀ v' ∈ (I.update dt).lanes d, v'.route = Route.Right →
      velocities.SLOW ≤ v'.velocity := by
  intro v' hv' hr
  rw [update_lanes_eq] at hv'
  obtain ⟨hmem, hact⟩ := List.mem_filter.mp hv'
  obtain ⟨j, v, hvmem, hstep⟩ := mem_map_with_idx hmem
  by_cases hva : v.active = true
  · refine hstep ▸ step_vehicle_right_ge _ _ _ _ _ _ _ _ hva ?_
    have := step_vehicle_route I.safe_distance I.intersection_entry_distance
      I.physics I.lanes dt d j v
    rw [← this, ← hstep]
    exact hr
  · have hva' : v.active = false := by
      cases h : v.active
      · rfl
      · exact absurd h hva
    have hvv : step_vehicle I.safe_distance I.intersection_entry_distance
        I.physics I.lanes dt d j v = v := by
      simp [step_vehicle, hva']
    rw [hstep, hvv] at hact
    simp [hva'] at hact

/-! ## Engine operation sequences (frame of `id` and `route`) -/

/-- Any vehicle present after a tick descends from a same-lane vehicle of the
pre-tick state with the same `id` and `route`. -/
theorem update_mem_id_route (I : Intersection) (dt : ℚ) (d : Direction) :
    ∀ v' ∈ (I.update dt).lanes d,
      ∃ v ∈ I.lanes d, v'.id = v.id ∧ v'.route = v.route := by
  intro v' hv'
  rw [update_lanes_eq] at hv'
  obtain ⟨hmem, _⟩ := List.mem_filter.mp hv'
  obtain ⟨j, v, hvmem, hstep⟩ := mem_map_with_idx hmem
  refine ⟨v, mem_sort_lane.mp hvmem, ?_, ?_⟩
  · rw [hstep]
    exact step_vehicle_id _ _ _ _ _ _ _ _
  · rw [hstep]
    exact step_vehicle_route _ _ _ _ _ _ _ _

/-- Any vehicle present after `add_vehicle` is a pre-state vehicle or the
vehicle just added. -/
theorem add_vehicle_mem (I : Intersection) (d0 : Direction) (v0 : Vehicle)
    (d : Direction) :
    ∀ v' ∈ ((I.add_vehicle d0 v0).1).lanes d, v' ∈ I.lanes d ∨ v' = v0 := by
  intro v' hv'
  by_cases hd : d0 = d
  · subst hd
    simp only [Intersection.add_vehicle, Function.update_same] at hv'
    rcases List.mem_append.mp hv' with h | h
    · exact Or.inl h
    · exact Or.inr (by simpa using h)
  · simp only [Intersection.add_vehicle, Function.update_noteq (Ne.symm hd)] at hv'
    exact Or.inl hv'

/-- Frame property over arbitrary operation sequences: every vehicle in the
final lanes carries the `id` and `route` of an initial or added vehicle. -/
theorem apply_ops_id_route :
    ∀ (ops : List EngineOp) (I : Intersection) (d : Direction) (v' : Vehicle),
      v' ∈ (apply_ops I ops).lanes d →
      (∃ d0, ∃ v ∈ I.lanes d0, v'.id = v.id ∧ v'.route = v.route) ∨
      (∃ v ∈ added_vehicles ops, v'.id = v.id ∧ v'.route = v.route)
  | [], I, d, v', hv' => Or.inl ⟨d, v', hv', rfl, rfl⟩
  | EngineOp.tick dt :: rest, I, d, v', hv' => by
    rcases apply_ops_id_route rest (I.update dt) d v' hv' with ⟨d0, v, hm, h1, h2⟩ | ⟨v, hm, h1, h2⟩
    · obtain ⟨w, hw, hw1, hw2⟩ := update_mem_id_route I dt d0 v hm
      exact Or.inl ⟨d0, w, hw, by rw [h1, hw1], by rw [h2, hw2]⟩
    · exact Or.inr ⟨v, by simpa [added_vehicles] using hm, h1, h2⟩
  | EngineOp.add d1 v1 :: rest, I, d, v', hv' => by
    rcases apply_ops_id_route rest ((I.add_vehicle d1 v1).1) d v' hv' with ⟨d0, v, hm, h1, h2⟩ | ⟨v, hm, h1, h2⟩
    · rcases add_vehicle_mem I d1 v1 d0 v hm with h | h
      · exact Or.inl ⟨d0, v, h, h1, h2⟩
      · subst h
        exact Or.inr ⟨v, by simp [added_vehicles], h1, h2⟩
    · exact Or.inr ⟨v, by simp [added_vehicles, hm], h1, h2⟩

/-! ## Close-call detection: characterization -/

theorem dist2_comm (p q : ℚ × ℚ) : dist2 p q = dist2 q p := by
  unfold dist2
  ring

theorem mem_vehicle_pairs {vs : List Vehicle} {q : Vehicle × Vehicle} :
    q ∈ vehicle_pairs vs ↔ q.1 ∈ vs ∧ q.2 ∈ vs := by
  cases q
  simp [vehicle_pairs, List.mem_flatMap]

theorem pair_key_cases {a b c d : ℕ} (h : pair_key a b = pair_key c d) :
    (a = c ∧ b = d) ∨ (a = d ∧ b = c) := by
  unfold pair_key at h
  split_ifs at h <;> simp_all [Prod.ext_iff]

/-- Under id-injectivity of the snapshot, the step's closeness test for a
concrete pair agrees with membership of its key in `close_pairs`. -/
theorem close_test_iff {safe : ℚ} {vs : List Vehicle}
    (hinj : ∀ v ∈ vs, ∀ w ∈ vs, v.id = w.id → v = w)
    {v1 v2 : Vehicle} (h1 : v1 ∈ vs) (h2 : v2 ∈ vs)
    (ha1 : v1.active = true) (ha2 : v2.active = true) (hne : v1.id ≠ v2.id) :
    sqrt_lt (dist2 v1.position v2.position) safe = true ↔
      pair_key v1.id v2.id ∈ close_pairs safe vs := by
  constructor
  · intro hc
    simp only [close_pairs, List.mem_toFinset, List.mem_filterMap]
    exact ⟨(v1, v2), mem_vehicle_pairs.mpr ⟨h1, h2⟩,
      by simp [ha1, ha2, hne, hc]⟩
  · intro hmem
    simp only [close_pairs, List.mem_toFinset, List.mem_filterMap] at hmem
    obtain ⟨⟨w1, w2⟩, hwmem, hw⟩ := hmem
    rw [mem_vehicle_pairs] at hwmem
    by_cases hcond : w1.active = true ∧ w2.active = true ∧ w1.id ≠ w2.id ∧
        sqrt_lt (dist2 w1.position w2.position) safe = true
    · rw [if_pos hcond] at hw
      have hkey' : pair_key w1.id w2.id = pair_key v1.id v2.id := by
        simpa using hw
      rcases pair_key_cases hkey' with ⟨hc1, hc2⟩ | ⟨hc1, hc2⟩
      · have e1 : w1 = v1 := hinj w1 hwmem.1 v1 h1 hc1
        have e2 : w2 = v2 := hinj w2 hwmem.2 v2 h2 hc2
        rw [← e1, ← e2]
        exact hcond.2.2.2
      · have e1 : w1 = v2 := hinj w1 hwmem.1 v2 h2 hc1
        have e2 : w2 = v1 := hinj w2 hwmem.2 v1 h1 hc2
        rw [← e1, ← e2, dist2_comm]
        exact hcond.2.2.2
    · rw [if_neg hcond] at hw
      exact absurd hw (by simp)

theorem detect_step_inv {safe : ℚ} {vs : List Vehicle}
    {rec0 : Finset (ℕ × ℕ)} {c0 : ℕ}
    (hinj : ∀ v ∈ vs, ∀ w ∈ vs, v.id = w.id → v = w)
    {st : DetectState} (hst : DetectInv safe vs rec0 c0 st)
    {v1 v2 : Vehicle} (h1 : v1 ∈ vs) (h2 : v2 ∈ vs) :
    DetectInv safe vs rec0 c0 (detect_step safe st v1 v2) := by
  obtain ⟨hc, hr, hn⟩ := hst
  simp only [detect_step]
  split_ifs with hval hchk hclose hrec
  · exact ⟨hc, hr, hn⟩
  · exact ⟨hc, hr, hn⟩
  · -- newly checked, close, already recorded
    push_neg at hval
    have hP : pair_key v1.id v2.id ∈ close_pairs safe vs :=
      (close_test_iff hinj h1 h2 (by simpa using hval.1) (by simpa using hval.2.1)
        hval.2.2).mp hclose
    have hpnotclose : pair_key v1.id v2.id ∉ st.currently_close_pairs := by
      rw [hc]
      intro hmem
      exact hchk (Finset.mem_filter.mp hmem).1
    have hprec0 : pair_key v1.id v2.id ∈ rec0 := by
      have := hrec
      rw [hr] at this
      rcases Finset.mem_union.mp this with h | h
      · exact h
      · exact absurd h hpnotclose
    refine ⟨?_, ?_, ?_⟩
    · simp only
      rw [hc, Finset.filter_insert, if_pos hP]
    · simp only
      rw [hr, Finset.union_insert]
      exact (Finset.insert_eq_self.mpr (hr ▸ hrec)).symm
    · simp only
      rw [hn, Finset.insert_sdiff_of_mem _ hprec0]
  · -- newly checked, close, not yet recorded: the counter increments
    push_neg at hval
    have hP : pair_key v1.id v2.id ∈ close_pairs safe vs :=
      (close_test_iff hinj h1 h2 (by simpa using hval.1) (by simpa using hval.2.1)
        hval.2.2).mp hclose
    have hpnotclose : pair_key v1.id v2.id ∉ st.currently_close_pairs := by
      rw [hc]
      intro hmem
      exact hchk (Finset.mem_filter.mp hmem).1
    have hprec0 : pair_key v1.id v2.id ∉ rec0 := by
      intro hmem
      exact hrec (by rw [hr]; exact Finset.mem_union_left _ hmem)
    refine ⟨?_, ?_, ?_⟩
    · simp only
      rw [hc, Finset.filter_insert, if_pos hP]
    · simp only
      rw [hr, Finset.union_insert]
    · simp only
      rw [hn, Finset.insert_sdiff_of_not_mem _ hprec0,
        Finset.card_insert_of_not_mem
          (fun hmem => hpnotclose (Finset.mem_sdiff.mp hmem).1)]
      omega
  · -- newly checked, not close
    push_neg at hval
    have hP : pair_key v1.id v2.id ∉ close_pairs safe vs := by
      intro hmem
      exact hclose ((close_test_iff hinj h1 h2 (by simpa using hval.1)
        (by simpa using hval.2.1) hval.2.2).mpr hmem)
    refine ⟨?_, hr, hn⟩
    simp only
    rw [hc, Finset.filter_insert, if_neg hP]

theorem detect_fold_inv {safe : ℚ} {vs : List Vehicle}
    {rec0 : Finset (ℕ × ℕ)} {c0 : ℕ}
    (hinj : ∀ v ∈ vs, ∀ w ∈ vs, v.id = w.id → v = w) :
    ∀ (L : List (Vehicle × Vehicle)) (st : DetectState),
      (∀ q ∈ L, q.1 ∈ vs ∧ q.2 ∈ vs) →
      DetectInv safe vs rec0 c0 st →
      DetectInv safe vs rec0 c0
        (L.foldl (fun st q => detect_step safe st q.1 q.2) st)
  | [], st, _, hst => hst
  | q :: rest, st, hL, hst => by
    have hq := hL q (by simp)
    exact detect_fold_inv hinj rest _
      (fun r hr => hL r (by simp [hr]))
      (detect_step_inv hinj hst hq.1 hq.2)

theorem detect_step_checked_subset (safe : ℚ) (st : DetectState)
    (v1 v2 : Vehicle) :
    st.checked_pairs ⊆ (detect_step safe st v1 v2).checked_pairs := by
  simp only [detect_step]
  split_ifs <;> simp [Finset.subset_insert, Finset.Subset.refl]

theorem detect_fold_checked_subset (safe : ℚ) :
    ∀ (L : List (Vehicle × Vehicle)) (st : DetectState),
      st.checked_pairs ⊆
        (L.foldl (fun st q => detect_step safe st q.1 q.2) st).checked_pairs
  | [], _ => Finset.Subset.refl _
  | q :: rest, st =>
    Finset.Subset.trans (detect_step_checked_subset safe st q.1 q.2)
      (detect_fold_checked_subset safe rest _)

theorem detect_step_checked_mem (safe : ℚ) (st : DetectState)
    {v1 v2 : Vehicle} (ha1 : v1.active = true) (ha2 : v2.active = true)
    (hne : v1.id ≠ v2.id) :
    pair_key v1.id v2.id ∈ (detect_step safe st v1 v2).checked_pairs := by
  simp only [detect_step]
  rw [if_neg (by simp [ha1, ha2, hne])]
  by_cases hchk : pair_key v1.id v2.id ∈ st.checked_pairs
  · rw [if_pos hchk]
    exact hchk
  · rw [if_neg hchk]
    split_ifs <;> simp [Finset.mem_insert]

theorem detect_fold_checked_complete (safe : ℚ) :
    ∀ (L : List (Vehicle × Vehicle)) (st : DetectState) (q : Vehicle × Vehicle),
      q ∈ L → q.1.active = true → q.2.active = true → q.1.id ≠ q.2.id →
      pair_key q.1.id q.2.id ∈
        (L.foldl (fun st q => detect_step safe st q.1 q.2) st).checked_pairs
  | [], _, _, hq, _, _, _ => absurd hq (by simp)
  | r :: rest, st, q, hq, ha1, ha2, hne => by
    rcases (by simpa using hq : q = r ∨ q ∈ rest) with h | h
    · subst h
      exact detect_fold_checked_subset safe rest _
        (detect_step_checked_mem safe st ha1 ha2 hne)
    · exact detect_fold_checked_complete safe rest _ q h ha1 ha2 hne

/-- Characterization of `detect_close_calls`: assuming ids identify vehicles
uniquely in the snapshot, the resulting recorded set is exactly the set of
currently-close pairs, and the counter advances by the number of close pairs
that were not already recorded. -/
theorem detect_close_calls_spec (safe : ℚ) (rec0 : Finset (ℕ × ℕ)) (c0 : ℕ)
    (lanes : Lanes)
    (hinj : ∀ v ∈ all_vehicles lanes, ∀ w ∈ all_vehicles lanes,
      v.id = w.id → v = w) :
    detect_close_calls safe rec0 c0 lanes =
      (close_pairs safe (all_vehicles lanes),
        c0 + ((close_pairs safe (all_vehicles lanes)) \ rec0).card) := by
  unfold detect_close_calls
  set vs := all_vehicles lanes with hvs
  set st0 : DetectState :=
    { checked_pairs := ∅
      currently_close_pairs := ∅
      recorded_close_calls := rec0
      close_calls := c0 } with hst0
  set stf :=
    (vehicle_pairs vs).foldl (fun st p => detect_step safe st p.1 p.2) st0
    with hstf
  have hinv : DetectInv safe vs rec0 c0 stf := by
    refine detect_fold_inv hinj (vehicle_pairs vs) st0 ?_ ?_
    · intro q hq
      exact mem_vehicle_pairs.mp hq
    · exact ⟨by simp, by simp, by simp⟩
  obtain ⟨hc, hr, hn⟩ := hinv
  -- the close set of the final state is the full close-pair set
  have hclosed : stf.currently_close_pairs = close_pairs safe vs := by
    rw [hc]
    ext p
    simp only [Finset.mem_filter, and_iff_right_iff_imp]
    intro hp
    -- every close pair's key was put into checked by its first visit
    simp only [close_pairs, List.mem_toFinset, List.mem_filterMap] at hp
    obtain ⟨⟨w1, w2⟩, hwmem, hw⟩ := hp
    by_cases hcond : w1.active = true ∧ w2.active = true ∧ w1.id ≠ w2.id ∧
        sqrt_lt (dist2 w1.position w2.position) safe = true
    · have hkey : pair_key w1.id w2.id = p := by
        rw [if_pos hcond] at hw
        simpa using hw
      rw [← hkey]
      exact detect_fold_checked_complete safe (vehicle_pairs vs) st0
        (w1, w2) hwmem hcond.1 hcond.2.1 hcond.2.2.1
    · rw [if_neg hcond] at hw
      exact absurd hw (by simp)
  refine Prod.ext ?_ ?_
  · show stf.recorded_close_calls.filter
      (fun p => p ∈ stf.currently_close_pairs) = _
    rw [hr, hclosed]
    ext p
    simp only [Finset.mem_filter, Finset.mem_union]
    tauto
  · show stf.close_calls = _
    rw [hn, hclosed]

/-! ## The right-of-way cascade -/

/-- `has_priority` is exactly the spec's five-rule cascade. -/
theorem has_priority_eq_spec (v other : Vehicle) :
    has_priority v other = spec_priority_cascade v other := by
  unfold has_priority spec_priority_cascade route_priority direction_priority
  rcases v with ⟨_, _, _, vr, vd, _, _, _, _, _⟩
  rcases other with ⟨_, _, _, or_, od, _, _, _, _, _⟩
  cases vr <;> cases or_ <;> cases vd <;> cases od <;> rfl

/-- For distinct ids the cascade picks exactly one winner of the pair. -/
theorem has_priority_antisymm (v other : Vehicle) (hne : v.id ≠ other.id) :
    has_priority v other = !has_priority other v := by
  simp only [has_priority]
  by_cases hA : v.distance_to_intersection < 0 ∧
      0 ≤ other.distance_to_intersection
  · have hB : ¬(other.distance_to_intersection < 0 ∧
        0 ≤ v.distance_to_intersection) := by
      rintro ⟨h1, h2⟩
      exact absurd hA.1 (not_lt.mpr h2)
    rw [if_pos hA, if_neg hB, if_pos hA]
    rfl
  · by_cases hB : other.distance_to_intersection < 0 ∧
        0 ≤ v.distance_to_intersection
    · rw [if_neg hA, if_pos hB, if_pos hB]
      rfl
    · rw [if_neg hA, if_neg hB, if_neg hB, if_neg hA]
      rw [abs_sub_comm other.distance_to_intersection
        v.distance_to_intersection]
      by_cases h2 : 8 <
          |v.distance_to_intersection - other.distance_to_intersection|
      · rw [if_pos h2, if_pos h2]
        have hne2 : v.distance_to_intersection ≠
            other.distance_to_intersection := by
          intro h
          rw [h, sub_self, abs_zero] at h2
          exact absurd h2 (by norm_num)
        rcases hne2.lt_or_lt with h | h
        · simp [h, not_lt_of_lt h, le_of_lt h]
        · simp [h, not_lt_of_lt h, le_of_lt h]
      · rw [if_neg h2, if_neg h2]
        generalize (match v.route with
          | Route.Straight => 3
          | Route.Right => 2
          | Route.Left => (1 : ℕ)) = a
        generalize (match other.route with
          | Route.Straight => 3
          | Route.Right => 2
          | Route.Left => (1 : ℕ)) = b
        generalize (match v.direction with
          | Direction.North => 4
          | Direction.East => 3
          | Direction.South => 2
          | Direction.West => (1 : ℕ)) = x
        generalize (match other.direction with
          | Direction.North => 4
          | Direction.East => 3
          | Direction.South => 2
          | Direction.West => (1 : ℕ)) = y
        by_cases hab : a = b
        · subst hab
          simp only [ne_eq, not_true_eq_false, if_false, if_neg]
          by_cases hxy : x = y
          · subst hxy
            simp only [ne_eq, not_true_eq_false, if_false, if_neg]
            rcases Nat.lt_or_ge v.id other.id with h | h
            · simp [h, Nat.not_lt_of_lt h]
            · have h' : other.id < v.id :=
                Nat.lt_of_le_of_ne h (Ne.symm hne)
              simp [h', Nat.not_lt_of_lt h', Nat.le_of_lt h']
          · rw [if_pos hxy, if_pos (Ne.symm hxy)]
            rcases Nat.lt_or_ge x y with h | h
            · simp [h, Nat.not_lt_of_lt h]
            · have h' : y < x := Nat.lt_of_le_of_ne h (Ne.symm hxy)
              simp [h', Nat.not_lt_of_lt h', Nat.le_of_lt h']
        · rw [if_pos hab, if_pos (Ne.symm hab)]
          rcases Nat.lt_or_ge a b with h | h
          · simp [h, Nat.not_lt_of_lt h]
          · have h' : b < a := Nat.lt_of_le_of_ne h (Ne.symm hab)
            simp [h', Nat.not_lt_of_lt h', Nat.le_of_lt h']

/-! ## Right-turn continuity -/

theorem move_along_zero (p : ℚ × ℚ) (d : Direction) :
    move_along p d 0 = p := by
  cases d <;> simp [move_along]

/-- Right-turn continuity: when a not-yet-turned Right vehicle covers its
remaining distance to the entry edge within one tick, it turns — and its
world position after the whole tick equals the pre-rotation world position
advanced by the post-turn travel segment along the new heading; that is, the
base-position shift by the offset-vector difference produces no jump at the
rotation instant. -/
theorem right_turn_continuity (v : Vehicle) (dt : ℚ)
    (hr : v.route = Route.Right) (ht : v.has_turned = false)
    (hreach : max (v.distance_to_intersection - INTERSECTION_HALF_WIDTH) 0 ≤
      v.velocity * dt) :
    (v.update_position dt).has_turned = true ∧
    (v.update_position dt).direction = direction_right_of v.direction ∧
    world_position (v.update_position dt).position
        (direction_right_of v.direction) Route.Right =
      move_along
        (world_position
          (move_along v.position v.direction (right_turn_edge_travel v dt))
          v.direction Route.Right)
        (direction_right_of v.direction)
        (max (v.velocity * dt - right_turn_edge_travel v dt) 0) := by
  have hcond : v.route = Route.Right ∧ v.has_turned = false ∧
      max (v.distance_to_intersection - INTERSECTION_HALF_WIDTH) 0 ≤
        v.velocity * dt + f32_epsilon :=
    ⟨hr, ht, le_trans hreach (le_add_of_nonneg_right (by norm_num [f32_epsilon]))⟩
  have htrav : (0 : ℚ) ≤ v.velocity * dt :=
    le_trans (le_max_right _ 0) hreach
  have hte : (0 : ℚ) ≤ right_turn_edge_travel v dt :=
    le_min (le_max_right _ 0) htrav
  simp only [Vehicle.update_position]
  rw [if_pos hcond]
  refine ⟨rfl, rfl, ?_⟩
  have hpos1 :
      (if 0 < min (max (v.distance_to_intersection - INTERSECTION_HALF_WIDTH) 0)
            (v.velocity * dt) then
          move_along v.position v.direction
            (min (max (v.distance_to_intersection - INTERSECTION_HALF_WIDTH) 0)
              (v.velocity * dt))
        else v.position) =
        move_along v.position v.direction (right_turn_edge_travel v dt) := by
    rw [right_turn_edge_travel]
    split_ifs with h
    · rfl
    · rw [le_antisymm (not_lt.mp h) hte, move_along_zero]
  have hafter : (0 : ℚ) ≤
      max (v.velocity * dt - right_turn_edge_travel v dt) 0 :=
    le_max_right _ 0
  rw [hpos1]
  set base_edge := move_along v.position v.direction
    (right_turn_edge_travel v dt) with hbase
  have hpos3 :
      ∀ q : ℚ × ℚ,
        (if 0 < max (v.velocity * dt - right_turn_edge_travel v dt) 0 then
            move_along q (direction_right_of v.direction)
              (max (v.velocity * dt - right_turn_edge_travel v dt) 0)
          else q) =
          move_along q (direction_right_of v.direction)
            (max (v.velocity * dt - right_turn_edge_travel v dt) 0) := by
    intro q
    split_ifs with h
    · rfl
    · rw [le_antisymm (not_lt.mp h) hafter, move_along_zero]
  rw [right_turn_edge_travel] at hpos3
  rw [hpos3]
  rw [hr]
  cases hd : v.direction <;>
    simp only [world_position, move_along, offset_vec, direction_right_of,
      right_turn_edge_travel, lane_offset_for_route, hbase, hd] <;>
    refine Prod.ext ?_ ?_ <;> dsimp only <;> ring

/-! ## Proximity-stage structure -/

/-- When a same-lane-ahead distance exists, the proximity stage ignores the
any-lane distance entirely. -/
theorem proximity_speed_ahead_only (s : ℚ) (r : Route) (a : ℚ)
    (x y : Option ℚ) :
    proximity_speed s r (some a) x = proximity_speed s r (some a) y := by
  unfold proximity_speed
  cases r <;> rfl

/-- Within the ahead branch (non-Right), a smaller squared distance never
yields a faster speed. -/
theorem proximity_speed_ahead_mono (s : ℚ) (hs : 0 < s) (r : Route)
    (hr : r ≠ Route.Right) (a a' : ℚ) (h : a ≤ a') (cn : Option ℚ) :
    proximity_speed s r (some a) cn ≤ proximity_speed s r (some a') cn := by
  have q1 : s * (4/5) * (s * (4/5)) < s * (3/2) * (s * (3/2)) := by nlinarith
  have q2 : s * (3/2) * (s * (3/2)) < s * (5/2) * (s * (5/2)) := by nlinarith
  have g1 : (0:ℚ) ≤ s * (4/5) := by positivity
  have g2 : (0:ℚ) < s * (3/2) := by positivity
  have g3 : (0:ℚ) < s * (5/2) := by positivity
  unfold proximity_speed
  rw [if_neg hr, if_neg hr]
  simp only [sqrt_le, sqrt_lt, decide_eq_true_eq, g1, g2, g3, true_and]
  split_ifs <;>
    norm_num [velocities.SLOW, velocities.MEDIUM, velocities.FAST] <;>
    linarith

/-- Within the any-lane branch (non-Right, no vehicle ahead), a smaller
squared distance never yields a faster speed. -/
theorem proximity_speed_any_mono (s : ℚ) (hs : 0 < s) (r : Route)
    (hr : r ≠ Route.Right) (b b' : ℚ) (h : b ≤ b') :
    proximity_speed s r none (some b) ≤ proximity_speed s r none (some b') := by
  have q1 : s * 1 * (s * 1) < s * 2 * (s * 2) := by nlinarith
  have g1 : (0:ℚ) < s * 1 := by positivity
  have g2 : (0:ℚ) < s * 2 := by positivity
  unfold proximity_speed
  rw [if_neg hr, if_neg hr]
  simp only [sqrt_lt, decide_eq_true_eq, g1, g2, true_and]
  split_ifs <;>
    norm_num [velocities.SLOW, velocities.MEDIUM, velocities.FAST] <;>
    linarith

/-- Within the ahead branch, for every route (the Right branch has its own
1.2/2.5 thresholds and SLOW floor), a smaller squared distance never yields
a faster speed. -/
theorem proximity_speed_ahead_mono_all (s : ℚ) (hs : 0 < s) (r : Route)
    (a a' : ℚ) (h : a ≤ a') (cn : Option ℚ) :
    proximity_speed s r (some a) cn ≤ proximity_speed s r (some a') cn := by
  by_cases hr : r = Route.Right
  · subst hr
    have q1 : s * (6/5) * (s * (6/5)) < s * (5/2) * (s * (5/2)) := by nlinarith
    have g1 : (0:ℚ) < s * (6/5) := by positivity
    have g2 : (0:ℚ) < s * (5/2) := by positivity
    unfold proximity_speed
    simp only [reduceIte, sqrt_lt, decide_eq_true_eq, g1, g2, true_and]
    split_ifs <;>
      norm_num [velocities.SLOW, velocities.MEDIUM, velocities.FAST] <;>
      linarith
  · exact proximity_speed_ahead_mono s hs r hr a a' h cn

/-- Within the any-lane branch, for every route (for Right the branch is the
constant FAST), a smaller squared distance never yields a faster speed. -/
theorem proximity_speed_any_mono_all (s : ℚ) (hs : 0 < s) (r : Route)
    (b b' : ℚ) (h : b ≤ b') :
    proximity_speed s r none (some b) ≤ proximity_speed s r none (some b') := by
  by_cases hr : r = Route.Right
  · subst hr
    unfold proximity_speed
    simp
  · exact proximity_speed_any_mono s hs r hr b b' h

/-! ## Claim theorems -/

/-- C1: snapshot isolation of the per-tick decision — the lanes produced by
`Intersection::update`, which the code computes by sequentially mutating the
live lane at index `i` while earlier indices have already been rewritten,
equal a pure indexed map of `step_vehicle` over the sorted start-of-tick
snapshot (followed by the end-of-tick purge).  Every vehicle's assigned
speed and movement is therefore a function only of its own start-of-tick
state, its sorted position, and the snapshot `I.lanes` — never of another
vehicle's already-updated state, and invariant under processing order. -/
theorem C1_snapshot_isolation (I : Intersection) (dt : ℚ) (d : Direction) :
    (I.update dt).lanes d =
      (map_with_idx
        (step_vehicle I.safe_distance I.intersection_entry_distance I.physics
          I.lanes dt d) 0
        (sort_lane (I.lanes d))).filter (fun v => v.active) :=
  update_lanes_eq I dt d

/-- C2: the `has_priority` decision is exactly the spec's ordered five-rule
cascade — (1) past the stop line outranks approaching, (2) the strictly
closer vehicle wins when the gap exceeds the 8 m noise band, (3) route
priority Straight > Right > Left, (4) direction priority North > East >
South > West, (5) lower id wins. -/
theorem C2_priority_cascade (v other : Vehicle) :
    has_priority v other = spec_priority_cascade v other :=
  has_priority_eq_spec v other

/-- C3: the path-crossing predicate returns false whenever either route is
Right; true whenever either route is Left and neither is Right; and for
Straight versus Straight it is true exactly for opposing direction pairs. -/
theorem C3_paths_cross (r1 r2 : Route) (d1 d2 : Direction) :
    ((r1 = Route.Right ∨ r2 = Route.Right) →
      paths_cross r1 r2 d1 d2 = false) ∧
    (r1 ≠ Route.Right → r2 ≠ Route.Right → (r1 = Route.Left ∨ r2 = Route.Left) →
      paths_cross r1 r2 d1 d2 = true) ∧
    (paths_cross Route.Straight Route.Straight d1 d2 = is_opposing d1 d2) := by
  refine ⟨?_, ?_, ?_⟩ <;>
    cases r1 <;> cases r2 <;> cases d1 <;> cases d2 <;>
      simp [paths_cross, is_opposing]

/-- C3 witness: the three parts at concrete routes and headings. -/
theorem C3_witness :
    paths_cross Route.Right Route.Straight Direction.North Direction.South =
      false ∧
    paths_cross Route.Left Route.Straight Direction.North Direction.East =
      true ∧
    paths_cross Route.Straight Route.Straight Direction.North Direction.South =
      is_opposing Direction.North Direction.South :=
  ⟨(C3_paths_cross Route.Right Route.Straight Direction.North
      Direction.South).1 (Or.inl rfl),
    (C3_paths_cross Route.Left Route.Straight Direction.North
      Direction.East).2.1 (by decide) (by decide) (Or.inl rfl),
    (C3_paths_cross Route.Straight Route.Straight Direction.North
      Direction.South).2.2⟩

/-- C4: right-turn continuity — a Right vehicle that has not yet turned and
whose remaining distance to the entry edge (floored at 0) is covered within
`velocity * delta_time` ends the tick turned, with its heading rotated 90°
clockwise, and its world position (base plus the Right lane offset under the
current heading) equals the pre-rotation world position advanced by the
post-turn travel segment: the offset transfer produces no jump at the
rotation instant (exactly, hence within any floating-point tolerance). -/
theorem C4_right_turn_continuity (v : Vehicle) (dt : ℚ)
    (hr : v.route = Route.Right) (ht : v.has_turned = false)
    (hreach : max (v.distance_to_intersection - INTERSECTION_HALF_WIDTH) 0 ≤
      v.velocity * dt) :
    (v.update_position dt).has_turned = true ∧
    (v.update_position dt).direction = direction_right_of v.direction ∧
    world_position (v.update_position dt).position
        (direction_right_of v.direction) Route.Right =
      move_along
        (world_position
          (move_along v.position v.direction (right_turn_edge_travel v dt))
          v.direction Route.Right)
        (direction_right_of v.direction)
        (max (v.velocity * dt - right_turn_edge_travel v dt) 0) :=
  right_turn_continuity v dt hr ht hreach

/-- C4 witness: a North-heading Right vehicle 11 m out at 10 m/s turns
within a 1 s tick and satisfies the continuity equation. -/
theorem C4_witness :
    ((Vehicle.new 10 (0, -5) 10 Route.Right Direction.North 11).route =
        Route.Right ∧
      (Vehicle.new 10 (0, -5) 10 Route.Right Direction.North 11).has_turned =
        false ∧
      max ((Vehicle.new 10 (0, -5) 10 Route.Right Direction.North
          11).distance_to_intersection - INTERSECTION_HALF_WIDTH) 0 ≤
        (Vehicle.new 10 (0, -5) 10 Route.Right Direction.North 11).velocity *
          1) ∧
    (((Vehicle.new 10 (0, -5) 10 Route.Right Direction.North
          11).update_position 1).has_turned = true ∧
      ((Vehicle.new 10 (0, -5) 10 Route.Right Direction.North
          11).update_position 1).direction =
        direction_right_of
          (Vehicle.new 10 (0, -5) 10 Route.Right Direction.North 11).direction ∧
      world_position
          ((Vehicle.new 10 (0, -5) 10 Route.Right Direction.North
            11).update_position 1).position
          (direction_right_of
            (Vehicle.new 10 (0, -5) 10 Route.Right Direction.North
              11).direction)
          Route.Right =
        move_along
          (world_position
            (move_along
              (Vehicle.new 10 (0, -5) 10 Route.Right Direction.North
                11).position
              (Vehicle.new 10 (0, -5) 10 Route.Right Direction.North
                11).direction
              (right_turn_edge_travel
                (Vehicle.new 10 (0, -5) 10 Route.Right Direction.North 11) 1))
            (Vehicle.new 10 (0, -5) 10 Route.Right Direction.North
              11).direction
            Route.Right)
          (direction_right_of
            (Vehicle.new 10 (0, -5) 10 Route.Right Direction.North
              11).direction)
          (max
            ((Vehicle.new 10 (0, -5) 10 Route.Right Direction.North
                11).velocity * 1 -
              right_turn_edge_travel
                (Vehicle.new 10 (0, -5) 10 Route.Right Direction.North 11) 1)
            0)) :=
  ⟨⟨rfl, rfl, by with_unfolding_all decide⟩,
    C4_right_turn_continuity
      (Vehicle.new 10 (0, -5) 10 Route.Right Direction.North 11) 1 rfl rfl
      (by with_unfolding_all decide)⟩

/-- C5: right-turn floor — an active Right vehicle is never assigned
velocity 0 by the engine: its per-tick processing always leaves it at
velocity at least SLOW (the proximity stage floors it at SLOW, the stop
branch excludes Right vehicles, the zone branch assigns SLOW, and the final
minimum of proximity and context speeds is at least SLOW); hence after any
`Intersection::update` from any state, every Right vehicle still in a lane
has velocity at least SLOW, regardless of how many ticks preceded. -/
theorem C5_right_turn_floor :
    (∀ (s e : ℚ) (p : Physics) (sn : Lanes) (dt : ℚ) (d : Direction) (i : ℕ)
        (v : Vehicle), v.active = true → v.route = Route.Right →
        velocities.SLOW ≤ (step_vehicle s e p sn dt d i v).velocity) ∧
    (∀ (I : Intersection) (dt : ℚ) (d : Direction),
        ∀ v' ∈ (I.update dt).lanes d, v'.route = Route.Right →
          velocities.SLOW ≤ v'.velocity) :=
  ⟨step_vehicle_right_ge, update_right_ge⟩

/-- C5 witness: a concrete active Right vehicle keeps velocity at least SLOW
through its per-tick processing. -/
theorem C5_witness :
    (Vehicle.new 7 (0, 0) 10 Route.Right Direction.North 40).active = true ∧
    (Vehicle.new 7 (0, 0) 10 Route.Right Direction.North 40).route =
      Route.Right ∧
    velocities.SLOW ≤
      (step_vehicle 25 (INTERSECTION_HALF_WIDTH + 10) (Physics.new 25 100)
        (fun _ => [Vehicle.new 7 (0, 0) 10 Route.Right Direction.North 40])
        (1/60) Direction.North 0
        (Vehicle.new 7 (0, 0) 10 Route.Right Direction.North 40)).velocity :=
  ⟨rfl, rfl,
    C5_right_turn_floor.1 25 (INTERSECTION_HALF_WIDTH + 10)
      (Physics.new 25 100)
      (fun _ => [Vehicle.new 7 (0, 0) 10 Route.Right Direction.North 40])
      (1/60) Direction.North 0
      (Vehicle.new 7 (0, 0) 10 Route.Right Direction.North 40) rfl rfl⟩

/-- C6 counterexample: the proximity stage does not map the smaller of the
two distances.  Scenario A (ego with a same-lane vehicle 20 m ahead and a
cross-lane vehicle 3 m away, safe_distance 10) has minimum squared distance
9 yet yields MEDIUM, while scenario B (only a same-lane vehicle 9 m behind)
has minimum squared distance 81 yet yields the slower SLOW: the stage uses
the ahead distance whenever one exists, not the smaller distance, so no
monotone map of the smaller distance produces its output. -/
theorem C6_counterexample :
    closest_distances
        (fun d =>
          match d with
          | Direction.North =>
            [Vehicle.new 1 (0, 0) 10 Route.Straight Direction.North 50,
              Vehicle.new 2 (0, 20) 10 Route.Straight Direction.North 30]
          | Direction.East =>
            [Vehicle.new 3 (3, 0) 10 Route.Straight Direction.East 40]
          | _ => [])
        Direction.North 0
        (Vehicle.new 1 (0, 0) 10 Route.Straight Direction.North 50) =
      (some 400, some 9) ∧
    closest_distances
        (fun d =>
          match d with
          | Direction.North =>
            [Vehicle.new 1 (0, 0) 10 Route.Straight Direction.North 50,
              Vehicle.new 2 (0, -9) 10 Route.Straight Direction.North 59]
          | _ => [])
        Direction.North 0
        (Vehicle.new 1 (0, 0) 10 Route.Straight Direction.North 50) =
      (none, some 81) ∧
    proximity_speed 10 Route.Straight (some 400) (some 9) =
      velocities.MEDIUM ∧
    proximity_speed 10 Route.Straight none (some 81) = velocities.SLOW ∧
    (9 : ℚ) < 81 ∧ velocities.SLOW < velocities.MEDIUM := by
  with_unfolding_all decide

/-- C6 amended: the proximity stage computes the same-lane-ahead nearest
distance and the nearest-any distance, then selects by branch — the ahead
distance alone whenever a vehicle ahead exists (the any-lane distance is
ignored), else the any-lane distance — and within each branch, for positive
safe_distance and every route (Right's ahead branch uses the 1.2/2.5
thresholds with a SLOW floor, its any-lane branch is the constant FAST),
a smaller distance never yields a faster candidate speed. -/
theorem C6_amended_branch_selection :
    (∀ (s : ℚ) (r : Route) (a : ℚ) (x y : Option ℚ),
        proximity_speed s r (some a) x = proximity_speed s r (some a) y) ∧
    (∀ (s : ℚ), 0 < s → ∀ (r : Route),
        ∀ (a a' : ℚ), a ≤ a' → ∀ (cn : Option ℚ),
        proximity_speed s r (some a) cn ≤ proximity_speed s r (some a') cn) ∧
    (∀ (s : ℚ), 0 < s → ∀ (r : Route),
        ∀ (b b' : ℚ), b ≤ b' →
        proximity_speed s r none (some b) ≤
          proximity_speed s r none (some b')) :=
  ⟨proximity_speed_ahead_only,
    fun s hs r a a' h cn => proximity_speed_ahead_mono_all s hs r a a' h cn,
    fun s hs r b b' h => proximity_speed_any_mono_all s hs r b b' h⟩

/-- C6 witness: the monotone ahead branch at concrete inputs, for a Straight
and for a Right vehicle. -/
theorem C6_witness :
    (0 : ℚ) < 10 ∧ (9 : ℚ) ≤ 16 ∧
    proximity_speed 10 Route.Straight (some 9) none ≤
      proximity_speed 10 Route.Straight (some 16) none ∧
    proximity_speed 10 Route.Right (some 9) none ≤
      proximity_speed 10 Route.Right (some 16) none :=
  ⟨by norm_num, by norm_num,
    C6_amended_branch_selection.2.1 10 (by norm_num) Route.Straight
      9 16 (by norm_num) none,
    C6_amended_branch_selection.2.1 10 (by norm_num) Route.Right
      9 16 (by norm_num) none⟩

/-- C7 counterexample: a vehicle crossing from distance 0 at 15 m/s for 4 s
ends at distance −60, strictly above −boundary_limit = −100, yet
`Vehicle::update_position` has already set `active = false`: the function
uses a hard-coded −50.0, not the configured boundary limit. -/
theorem C7_counterexample :
    ((Vehicle.new 1 (0, 0) 15 Route.Straight Direction.North
        0).update_position 4).active = false ∧
    (-100 : ℚ) ≤
      ((Vehicle.new 1 (0, 0) 15 Route.Straight Direction.North
        0).update_position 4).distance_to_intersection := by
  with_unfolding_all decide

/-- C7 amended: `Vehicle::update_position` updates the distance by
`velocity * delta_time` and sets `active` to false exactly when the updated
distance is strictly below the hard-coded −50.0 (not the configured
boundary limit of 100), never reactivating an inactive vehicle; and after
`Intersection::update`, every lane contains only active vehicles (inactive
ones are purged at tick end). -/
theorem C7_amended_boundary_deactivation :
    (∀ (v : Vehicle) (dt : ℚ),
        (v.update_position dt).active =
          (v.active &&
            !decide (v.distance_to_intersection - v.velocity * dt < -50)) ∧
        (v.update_position dt).distance_to_intersection =
          v.distance_to_intersection - v.velocity * dt) ∧
    (∀ (I : Intersection) (dt : ℚ) (d : Direction),
        ((I.update dt).lanes d).all (fun v => v.active) = true) :=
  ⟨fun v dt => ⟨update_position_active v dt, update_position_distance v dt⟩,
    fun I dt d => by
      rw [update_lanes_eq, List.all_eq_true]
      intro v hv
      exact (List.mem_filter.mp hv).2⟩

/-- C8 counterexample: two opposing Straight vehicles 20 m from the center
(inside the entry zone of 20.5 m), with crossing paths and overlapping
arrival windows, both hold nonzero velocity after the tick — the winner
proceeds at MEDIUM and the loser is slowed to SLOW (5 m/s), not stopped,
because STOP is issued only within 2 m of the stop line. -/
theorem C8_counterexample :
    (let I0 : Intersection :=
      { lanes := fun d =>
          match d with
          | Direction.North =>
            [Vehicle.new 1 (0, -20) 10 Route.Straight Direction.North 20]
          | Direction.South =>
            [Vehicle.new 2 (0, 20) 10 Route.Straight Direction.South 20]
          | _ => []
        safe_distance := 10
        physics := Physics.new 10 100
        intersection_entry_distance := INTERSECTION_HALF_WIDTH + 10
        recorded_close_calls := ∅
        close_calls := 0 };
    paths_cross Route.Straight Route.Straight Direction.North Direction.South =
        true ∧
      conflict_live
          (Vehicle.new 1 (0, -20) 10 Route.Straight Direction.North 20)
          (Vehicle.new 2 (0, 20) 10 Route.Straight Direction.South 20) 0 =
        true ∧
      (0 : ℚ) < 20 ∧ (20 : ℚ) ≤ I0.intersection_entry_distance ∧
      ((I0.update (1/10)).lanes Direction.North).map (fun v => v.velocity) =
        [10] ∧
      ((I0.update (1/10)).lanes Direction.South).map (fun v => v.velocity) =
        [5] ∧
      (10 : ℚ) ≠ 0 ∧ (5 : ℚ) ≠ 0) := by
  with_unfolding_all decide

/-- C8 amended: the cascade designates exactly one winner of any pair with
distinct ids — `has_priority` is antisymmetric — but the loser of a live
conflict is forced to SLOW (stopped only within 2 m of the stop line), so
both vehicles may hold nonzero velocity after the tick's resolution. -/
theorem C8_amended_single_winner (v other : Vehicle)
    (hne : v.id ≠ other.id) :
    has_priority v other = !has_priority other v :=
  has_priority_antisymm v other hne

/-- C8 witness: antisymmetry at the two vehicles of the counterexample. -/
theorem C8_witness :
    (Vehicle.new 1 (0, -20) 10 Route.Straight Direction.North 20).id ≠
      (Vehicle.new 2 (0, 20) 10 Route.Straight Direction.South 20).id ∧
    has_priority
        (Vehicle.new 1 (0, -20) 10 Route.Straight Direction.North 20)
        (Vehicle.new 2 (0, 20) 10 Route.Straight Direction.South 20) =
      !has_priority
        (Vehicle.new 2 (0, 20) 10 Route.Straight Direction.South 20)
        (Vehicle.new 1 (0, -20) 10 Route.Straight Direction.North 20) :=
  ⟨by decide,
    C8_amended_single_winner
      (Vehicle.new 1 (0, -20) 10 Route.Straight Direction.North 20)
      (Vehicle.new 2 (0, 20) 10 Route.Straight Direction.South 20)
      (by decide)⟩

/-- C9: close-call counting per encounter — when ids identify snapshot
vehicles uniquely, a `detect_close_calls` pass leaves the recorded set equal
to exactly the currently-close pairs and advances the counter by the number
of close pairs that were not already recorded; composing two passes, the
total advance is (new close pairs of tick 1) + (close pairs of tick 2 not
close in tick 1).  Hence a pair increments the counter on the tick it first
becomes close, not again while it stays close on consecutive ticks, and
again only after a tick on which it was no longer close (or was pruned from
the recorded set). -/
theorem C9_close_call_encounters (safe : ℚ) (rec0 : Finset (ℕ × ℕ)) (c0 : ℕ)
    (lanes1 lanes2 : Lanes)
    (hinj1 : ∀ v ∈ all_vehicles lanes1, ∀ w ∈ all_vehicles lanes1,
      v.id = w.id → v = w)
    (hinj2 : ∀ v ∈ all_vehicles lanes2, ∀ w ∈ all_vehicles lanes2,
      v.id = w.id → v = w) :
    (detect_close_calls safe rec0 c0 lanes1).1 =
      close_pairs safe (all_vehicles lanes1) ∧
    (detect_close_calls safe rec0 c0 lanes1).2 =
      c0 + ((close_pairs safe (all_vehicles lanes1)) \ rec0).card ∧
    (detect_close_calls safe (detect_close_calls safe rec0 c0 lanes1).1
        (detect_close_calls safe rec0 c0 lanes1).2 lanes2).2 =
      c0 + ((close_pairs safe (all_vehicles lanes1)) \ rec0).card +
        ((close_pairs safe (all_vehicles lanes2)) \
          close_pairs safe (all_vehicles lanes1)).card := by
  have h1 := detect_close_calls_spec safe rec0 c0 lanes1 hinj1
  refine ⟨by rw [h1], by rw [h1], ?_⟩
  rw [h1]
  have h2 := detect_close_calls_spec safe
    (close_pairs safe (all_vehicles lanes1))
    (c0 + ((close_pairs safe (all_vehicles lanes1)) \ rec0).card)
    lanes2 hinj2
  rw [h2]

/-- C9 witness: two vehicles 5 m apart with safe_distance 10, observed in
two consecutive passes: the counter advance of the second pass is the number
of pairs newly close relative to the first pass (here zero extra). -/
theorem C9_witness :
    (∀ v ∈ all_vehicles c9_lanes, ∀ w ∈ all_vehicles c9_lanes,
      v.id = w.id → v = w) ∧
    (detect_close_calls 10 (detect_close_calls 10 ∅ 0 c9_lanes).1
        (detect_close_calls 10 ∅ 0 c9_lanes).2 c9_lanes).2 =
      0 + (close_pairs 10 (all_vehicles c9_lanes) \ (∅ : Finset (ℕ × ℕ))).card +
        (close_pairs 10 (all_vehicles c9_lanes) \
          close_pairs 10 (all_vehicles c9_lanes)).card :=
  ⟨by with_unfolding_all decide,
    (C9_close_call_encounters 10 ∅ 0 c9_lanes c9_lanes
      (by with_unfolding_all decide) (by with_unfolding_all decide)).2.2⟩

/-- C10: frame invariant — `Vehicle::update_position`, `Vehicle::stop` and
`Vehicle::set_velocity` never change `id` or `route`, and after any sequence
of `Intersection::update` and `Intersection::add_vehicle` calls, every
vehicle in the lanes carries the `id` and `route` of an initial or added
vehicle unchanged. -/
theorem C10_frame_id_route :
    (∀ (v : Vehicle) (dt : ℚ),
        (v.update_position dt).id = v.id ∧
        (v.update_position dt).route = v.route) ∧
    (∀ v : Vehicle, v.stop.id = v.id ∧ v.stop.route = v.route) ∧
    (∀ (v : Vehicle) (x : ℚ),
        (v.set_velocity x).id = v.id ∧ (v.set_velocity x).route = v.route) ∧
    (∀ (ops : List EngineOp) (I : Intersection) (d : Direction)
        (v' : Vehicle), v' ∈ (apply_ops I ops).lanes d →
        (∃ d0, ∃ v ∈ I.lanes d0, v'.id = v.id ∧ v'.route = v.route) ∨
        (∃ v ∈ added_vehicles ops, v'.id = v.id ∧ v'.route = v.route)) :=
  ⟨fun v dt => ⟨update_position_id v dt, update_position_route v dt⟩,
    fun _ => ⟨rfl, rfl⟩, fun _ _ => ⟨rfl, rfl⟩, apply_ops_id_route⟩

/-- C10 witness: a freshly added vehicle is found in the final lanes with
its construction-time id and route. -/
theorem C10_witness :
    Vehicle.new 3 (0, 0) 10 Route.Left Direction.West 100 ∈
      (apply_ops (Intersection.new 25)
        [EngineOp.add Direction.West
          (Vehicle.new 3 (0, 0) 10 Route.Left Direction.West 100)]).lanes
        Direction.West ∧
    ((∃ d0, ∃ v ∈ (Intersection.new 25).lanes d0,
        (Vehicle.new 3 (0, 0) 10 Route.Left Direction.West 100).id = v.id ∧
        (Vehicle.new 3 (0, 0) 10 Route.Left Direction.West 100).route =
          v.route) ∨
      (∃ v ∈ added_vehicles
          [EngineOp.add Direction.West
            (Vehicle.new 3 (0, 0) 10 Route.Left Direction.West 100)],
        (Vehicle.new 3 (0, 0) 10 Route.Left Direction.West 100).id = v.id ∧
        (Vehicle.new 3 (0, 0) 10 Route.Left Direction.West 100).route =
          v.route)) :=
  ⟨by with_unfolding_all decide,
    C10_frame_id_route.2.2.2
      [EngineOp.add Direction.West
        (Vehicle.new 3 (0, 0) 10 Route.Left Direction.West 100)]
      (Intersection.new 25) Direction.West
      (Vehicle.new 3 (0, 0) 10 Route.Left Direction.West 100)
      (by with_unfolding_all decide)⟩
